import Mathlib

/-!
Verification development for the posture_guide repository.

This file gives a shallow embedding, in Lean 4, of the core posture-detection
pipeline of the repository:

* `poseUtils.ml.js` — feature extraction (`computeFeaturesFromKeypoints`,
  `computeWindowStatistics`, `hasValidPose`);
* `detectorAPI.ml.js` — the `PostureDetector` class (`thresholdClassification`,
  `processWindow`, `checkForAlert`, `updateAdaptiveBaseline`, `stopDetector`,
  `forceInferOnce`, `getStatus`);
* `modelService.ml.js` — the shape of `predict`'s return value;
* `constants.ml.js` — `DEFAULT_CONFIG`.

Modelling conventions:
* JS numbers are modelled by `ℚ`.  Every guarded source path only ever
  produces finite, non-NaN numbers from finite inputs, so the source's
  `isFinite`/`isNaN` guards hold by construction in the model; each such
  guard is noted by a comment at the place where the source checks it.
* Timestamps (`Date.now()`) and millisecond durations are modelled by `ℤ`.
* Mutation of fields of the detector singleton is modelled by explicit state
  passing on a `DetectorState` record; the module-level `angleHistory`
  smoothing buffer of poseUtils is threaded explicitly as a `List ℚ`.
* The transcendental geometry helpers of poseUtils (`atan2`/`sqrt` based:
  the raw combined spine angle before median smoothing, the head-forward and
  shoulder-width ratios, and the shoulder slope) produce irrational numbers
  and are abstracted as an arbitrary `Geometry` record of functions; every
  theorem quantifies over the geometry (or fixes a concrete rational-valued
  one for witnesses).  All validation, smoothing, aggregation, classification
  and alert logic — the subject of every claim — is embedded concretely.
* JS `x || d` fallbacks on numbers (falsy exactly at `0`) are embedded by
  the `jsOr` helpers; JS property access `obj[1]` on a string-keyed object
  (which looks up the key `"1"`) is embedded by association-list lookup.
-/

namespace PostureGuide

/-- Class labels (`DEFAULT_CONFIG.LABELS` in constants.ml.js).  Note that the
source's `LABELS.SLOUCH` is the string `'bad'`, i.e. the same value as
`LABELS.BAD`; both are modelled by `Label.bad`. -/
inductive Label where
  | good
  | mild
  | bad
  | insufficient
deriving DecidableEq, Repr

/-- A `{good, mild, bad}` angle-cutoff triple, as returned by
`PostureDetector.getThresholds`. -/
structure Thresholds where
  good : ℚ
  mild : ℚ
  bad : ℚ
deriving DecidableEq, Repr

/-- The fields of `DEFAULT_CONFIG` (constants.ml.js) that the embedded core
logic reads. -/
structure Config where
  MIN_CONFIDENCE : ℚ
  BASELINE_ANGLE : ℚ
  SAMPLING_WINDOW_MS : ℤ
  MIN_VALID_FRAMES : ℕ
  WINDOWS_HISTORY : ℕ
  WINDOWS_VOTES_REQUIRED : ℕ
  PERSIST_MS : ℤ
  ALERT_COOLDOWN_MS : ℤ
  GOOD_THRESHOLD : ℚ
  MILD_THRESHOLD : ℚ
  BAD_THRESHOLD : ℚ
  MIN_ANGLE : ℚ
  MAX_ANGLE : ℚ
  BASELINE_UPDATE_ALPHA : ℚ
  MODEL_WEIGHT : ℚ
  THRESHOLD_WEIGHT : ℚ
  SHOULDER_SLOPE_MAX : ℚ
deriving DecidableEq, Repr

/-- `DEFAULT_CONFIG` values (constants.ml.js lines 6-83). -/
def defaultConfig : Config :=
  { MIN_CONFIDENCE := 11/20
    BASELINE_ANGLE := 5
    SAMPLING_WINDOW_MS := 5000
    MIN_VALID_FRAMES := 3
    WINDOWS_HISTORY := 3
    WINDOWS_VOTES_REQUIRED := 2
    PERSIST_MS := 8000
    ALERT_COOLDOWN_MS := 30000
    GOOD_THRESHOLD := 5
    MILD_THRESHOLD := 10
    BAD_THRESHOLD := 10
    MIN_ANGLE := 0
    MAX_ANGLE := 70
    BASELINE_UPDATE_ALPHA := 1/5
    MODEL_WEIGHT := 7/10
    THRESHOLD_WEIGHT := 3/10
    SHOULDER_SLOPE_MAX := 25 }

/-- JS `x || d` on a rational number: the left operand is kept unless it is
falsy (`0`). -/
def jsOrQ (x d : ℚ) : ℚ := if x = 0 then d else x

/-- JS `n || d` on a natural number (falsy only at `0`). -/
def jsOrN (n d : ℕ) : ℕ := if n = 0 then d else n

/-- JS `n || d` on an integer (falsy only at `0`). -/
def jsOrZ (n d : ℤ) : ℤ := if n = 0 then d else n

/-- `PostureDetector.thresholdClassification` (detectorAPI.ml.js lines
1019-1066), in state-passing form: given the thresholds from `getThresholds`,
the current `lastClassification` hysteresis state and the window's relative
angle, return the produced label together with the new `lastClassification`.
Note that the source only assigns `this.lastClassification` on some paths:
returning `mild` from the `good` state, or `good` from the `good` state, or
`mild` from the `mild` state, leaves it untouched. -/
def thresholdClassification (th : Thresholds) (last : Option Label) (angleRel : ℚ) :
    Label × Option Label :=
  let g := jsOrQ th.good defaultConfig.GOOD_THRESHOLD
  let m := jsOrQ th.mild defaultConfig.MILD_THRESHOLD
  let b := jsOrQ th.bad defaultConfig.BAD_THRESHOLD
  let hysteresis : ℚ := 3/2
  match last with
  | some Label.good =>
    if angleRel ≤ m + hysteresis then (Label.good, last)
    else if angleRel ≤ b + hysteresis then (Label.mild, last)
    else (Label.bad, some Label.bad)
  | some Label.mild =>
    if angleRel ≤ g then (Label.good, some Label.good)
    else if angleRel ≤ b then (Label.mild, last)
    else (Label.bad, some Label.bad)
  | _ =>
    if angleRel ≤ g then (Label.good, some Label.good)
    else if angleRel ≤ m then (Label.mild, some Label.mild)
    else (Label.bad, some Label.bad)

/-- A parsed keypoint (poseUtils.ml.js `parsePoint`): coordinates plus a
confidence.  Coordinates coming out of `parsePoint` are finite (falsy
fallbacks map absent or NaN components to `0`), so `ℚ` fields are faithful. -/
structure Pt where
  x : ℚ
  y : ℚ
  z : ℚ
  conf : ℚ
deriving DecidableEq, Repr

/-- The five required keypoints after `parseKeypoints`: the fields are the
entries of the parsed-points record that `computeFeaturesFromKeypoints`'s
`required` loop inspects, in the source's order
`left_shoulder, right_shoulder, left_hip, right_hip, nose`;
`none` models an absent keypoint. -/
structure Keypoints where
  leftShoulder : Option Pt
  rightShoulder : Option Pt
  leftHip : Option Pt
  rightHip : Option Pt
  nose : Option Pt
deriving DecidableEq, Repr

/-- The transcendental geometry helpers of poseUtils.ml.js, abstracted as
parameters because they are `atan2`/`sqrt` based and hence irrational:
`rawCombinedAngle` is the `combined` value of `computeSpineAngle` (lines
169-205, before the median smoothing, which IS embedded concretely in
`computeSpineAngle` below), and the other three are
`computeHeadForwardRatio`, `computeShoulderWidthRatio` and
`computeShoulderSlope`.  For finite inputs each of these JS functions returns
a finite non-negative number, so `ℚ` codomains are faithful.  Theorems
quantify over this record, so they hold whatever these functions compute. -/
structure Geometry where
  rawCombinedAngle : Pt → Pt → Pt → Pt → ℚ
  headForwardRatioFn : Pt → Pt → Pt → ℚ
  shoulderWidthRatioFn : Pt → Pt → ℚ
  shoulderSlopeFn : Pt → Pt → ℚ

/-- Insertion of a rational into a sorted list, used to model the JS
`sort((a, b) => a - b)` on the smoothing buffer. -/
def insertSortedQ (x : ℚ) : List ℚ → List ℚ
  | [] => [x]
  | y :: ys => if x ≤ y then x :: y :: ys else y :: insertSortedQ x ys

/-- Stable sort of rationals (models JS `Array.prototype.sort` with the
numeric comparator). -/
def sortQ (l : List ℚ) : List ℚ := l.foldr insertSortedQ []

/-- `computeSpineAngle` (poseUtils.ml.js lines 169-218) in state-passing form
over the module-level `angleHistory` ring buffer (`MAX_HISTORY = 5`): push the
raw combined angle, drop the oldest entry past capacity (`shift()`), and
return the median of the sorted buffer clamped to `≤ 90`, together with the
new buffer. -/
def computeSpineAngle (G : Geometry) (ls rs lh rh : Pt) (hist : List ℚ) : ℚ × List ℚ :=
  let combined := G.rawCombinedAngle ls rs lh rh
  let pushed := hist ++ [combined]
  let hist2 := if 5 < pushed.length then pushed.tail else pushed
  let sorted := sortQ hist2
  let median := sorted.getD (sorted.length / 2) 0
  (min median 90, hist2)

/-- Metadata record returned by `computeFeaturesFromKeypoints` on success
(poseUtils.ml.js lines 63-72; the `timestamp` field is omitted). -/
structure FeatureMeta where
  spineAngle : ℚ
  spineAngleRel : ℚ
  headForwardRatio : ℚ
  shoulderWidthRatio : ℚ
  shoulderSlope : ℚ
  frameQuality : ℚ
  baselineAngle : ℚ
deriving DecidableEq, Repr

/-- The value returned by `computeFeaturesFromKeypoints`: on rejection the
source returns `{features: null, confidence: 0, metadata: {error}}`; the
error message is modelled by `errMsg`. -/
structure FeatureResult where
  features : Option (List ℚ)
  confidence : ℚ
  errMsg : Option String
  meta : Option FeatureMeta
deriving DecidableEq, Repr

/-- The rejection value produced by the `catch` block of
`computeFeaturesFromKeypoints` (poseUtils.ml.js lines 75-84). -/
def rejectResult (msg : String) : FeatureResult :=
  { features := none, confidence := 0, errMsg := some msg, meta := none }

/-- `computeFeaturesFromKeypoints` (poseUtils.ml.js lines 11-85) in
state-passing form over the `angleHistory` buffer.  The `required` loop's
missing-keypoint checks, the average-confidence gate, the spine-angle range
gate and the feature assembly are embedded exactly; each `throw` is modelled
as returning the catch block's rejection value.  The source's final
`features.some(f => !isFinite(f) || isNaN(f))` gate holds by construction
over `ℚ` (all five entries are rational), so the success branch is reached
exactly when the embedded gates pass. -/
def computeFeaturesFromKeypoints (G : Geometry) (kps : Keypoints) (baselineAngle : ℚ)
    (hist : List ℚ) : FeatureResult × List ℚ :=
  match kps.leftShoulder, kps.rightShoulder, kps.leftHip, kps.rightHip, kps.nose with
  | none, _, _, _, _ => (rejectResult "Missing required keypoint: left_shoulder", hist)
  | some _, none, _, _, _ => (rejectResult "Missing required keypoint: right_shoulder", hist)
  | some _, some _, none, _, _ => (rejectResult "Missing required keypoint: left_hip", hist)
  | some _, some _, some _, none, _ => (rejectResult "Missing required keypoint: right_hip", hist)
  | some _, some _, some _, some _, none => (rejectResult "Missing required keypoint: nose", hist)
  | some ls, some rs, some lh, some rh, some nose =>
    let avgConfidence := (ls.conf + rs.conf + lh.conf + rh.conf + nose.conf) / 5
    if avgConfidence < defaultConfig.MIN_CONFIDENCE then
      (rejectResult "Low confidence", hist)
    else
      let sa := computeSpineAngle G ls rs lh rh hist
      if sa.1 < defaultConfig.MIN_ANGLE ∨ sa.1 > defaultConfig.MAX_ANGLE then
        (rejectResult "Invalid spine angle", sa.2)
      else
        let spineAngleRel := |sa.1 - baselineAngle|
        let hfr := G.headForwardRatioFn nose ls rs
        let swr := G.shoulderWidthRatioFn ls rs
        let slope := G.shoulderSlopeFn ls rs
        let fq := max 0 (min 1 (avgConfidence *
          (1 - min 1 (|slope| / defaultConfig.SHOULDER_SLOPE_MAX))))
        ({ features := some [sa.1, spineAngleRel, hfr, swr, avgConfidence]
           confidence := avgConfidence
           errMsg := none
           meta := some
             { spineAngle := sa.1
               spineAngleRel := spineAngleRel
               headForwardRatio := hfr
               shoulderWidthRatio := swr
               shoulderSlope := slope
               frameQuality := fq
               baselineAngle := baselineAngle } },
         sa.2)

/-- `hasValidPose` (poseUtils.ml.js lines 305-308): runs
`computeFeaturesFromKeypoints` with the default baseline angle and checks the
confidence and that features are non-null.  Returns the verdict together with
the (possibly mutated) smoothing buffer. -/
def hasValidPose (G : Geometry) (kps : Keypoints) (minConfidence : ℚ)
    (hist : List ℚ) : Bool × List ℚ :=
  let r := computeFeaturesFromKeypoints G kps defaultConfig.BASELINE_ANGLE hist
  (decide (minConfidence ≤ r.1.confidence) && r.1.features.isSome, r.2)

/-- A collected frame sample as read by `computeWindowStatistics`: the
relative and absolute spine angles (`metadata.spineAngleRel`,
`metadata.spineAngle`) and the per-frame weight.  In the source the sample
also carries the full feature vector and metadata, which the statistics do
not read. -/
structure Sample where
  angleRel : ℚ
  angleAbs : ℚ
  weight : ℚ
deriving DecidableEq, Repr

/-- A value/weight pair, as pushed by `computeWindowStatistics`. -/
structure WEntry where
  value : ℚ
  weight : ℚ
deriving DecidableEq, Repr

/-- Weighted per-window statistics (`computeWeightedStats`, poseUtils.ml.js
lines 257-300).  The source's `std` field is `Math.sqrt` of the clamped
weighted variance; the square root is irrational, so the model stores the
clamped variance itself in `varOfStd` (no claim reads this field).  `vmin`
and `vmax` model the source's `min` and `max` fields. -/
structure StatsCore where
  mean : ℚ
  median : ℚ
  varOfStd : ℚ
  p25 : ℚ
  p75 : ℚ
  trimmedMean : ℚ
  count : ℕ
  vmin : ℚ
  vmax : ℚ
deriving DecidableEq, Repr

/-- The cumulative-weight percentile walk of `computeWeightedStats`. -/
def percentileGo (total target : ℚ) : List WEntry → ℚ → Option ℚ
  | [], _ => none
  | e :: rest, acc =>
    let acc2 := acc + e.weight / total
    if target ≤ acc2 then some e.value else percentileGo total target rest acc2

/-- `percentile(target)` inside `computeWeightedStats`: walk the value-sorted
entries accumulating normalized weight; past the end, return the largest
value. -/
def percentileOf (sorted : List WEntry) (total target : ℚ) : ℚ :=
  (percentileGo total target sorted 0).getD (((sorted.getLast?).map WEntry.value).getD 0)

/-- Stable insertion into a value-sorted entry list (models the JS stable
`sort((a, b) => a.value - b.value)`). -/
def insertSortedW (e : WEntry) : List WEntry → List WEntry
  | [] => [e]
  | x :: xs => if e.value ≤ x.value then e :: x :: xs else x :: insertSortedW e xs

/-- Stable sort of entries by value. -/
def sortByValue (l : List WEntry) : List WEntry := l.foldr insertSortedW []

/-- `computeWeightedStats` (poseUtils.ml.js lines 257-300): weighted mean,
weighted variance (stored in place of its square root, see `StatsCore`),
weighted percentiles, and the rank-trimmed (middle 80%) weighted mean. -/
def computeWeightedStats (entries : List WEntry) : StatsCore :=
  let sorted := sortByValue entries
  let totalWeight := jsOrQ (entries.foldl (fun s e => s + e.weight) 0) 1
  let weightedMean := (entries.foldl (fun s e => s + e.value * e.weight) 0) / totalWeight
  let weightedVariance :=
    (entries.foldl (fun s e => s + e.weight * ((e.value - weightedMean) * (e.value - weightedMean))) 0)
      / totalWeight
  let denom : ℚ := if sorted.length - 1 = 0 then 1 else ((sorted.length - 1 : ℕ) : ℚ)
  let trimmed := (sorted.enum.filter (fun p =>
      decide ((1 : ℚ)/10 ≤ (p.1 : ℚ) / denom) && decide ((p.1 : ℚ) / denom ≤ 9/10))).map
    (fun p => p.2)
  let trimmedWeight := jsOrQ (trimmed.foldl (fun s e => s + e.weight) 0) 1
  let trimmedMean := if trimmed.isEmpty then weightedMean
    else (trimmed.foldl (fun s e => s + e.value * e.weight) 0) / trimmedWeight
  { mean := weightedMean
    median := percentileOf sorted totalWeight (1/2)
    varOfStd := max 0 weightedVariance
    p25 := percentileOf sorted totalWeight (1/4)
    p75 := percentileOf sorted totalWeight (3/4)
    trimmedMean := trimmedMean
    count := entries.length
    vmin := ((sorted.head?.map WEntry.value).getD 0)
    vmax := (((sorted.getLast?).map WEntry.value).getD 0) }

/-- Window statistics: the relative-angle statistics spread together with the
optional absolute-angle statistics (`computeWindowStatistics`'s return
object). -/
structure WinStats extends StatsCore where
  absolute : Option StatsCore
deriving DecidableEq, Repr

/-- `computeWindowStatistics` (poseUtils.ml.js lines 90-118): collect
weighted relative/absolute angle entries (weights floored at `0.001`; the
source's `isFinite` guards hold over `ℚ`, the `≥ 0` guards are embedded),
return `null` for an empty sample list or no relative entries. -/
def computeWindowStatistics (samples : List Sample) : Option WinStats :=
  if samples.isEmpty then none
  else
    let relEntries := samples.filterMap (fun s =>
      if 0 ≤ s.angleRel then some (⟨s.angleRel, max (1/1000) s.weight⟩ : WEntry) else none)
    let absEntries := samples.filterMap (fun s =>
      if 0 ≤ s.angleAbs then some (⟨s.angleAbs, max (1/1000) s.weight⟩ : WEntry) else none)
    if relEntries.isEmpty then none
    else some
      { toStatsCore := computeWeightedStats relEntries
        absolute := if absEntries.isEmpty then none
          else some (computeWeightedStats absEntries) }

/-- The value returned by `predict` (modelService.ml.js lines 482-523): a
label (`LABELS.SLOUCH`, i.e. `'bad'`, when the slouch probability exceeds the
good probability, else `LABELS.GOOD`), and a `probs` object keyed by the
LABEL NAMES — the string keys `"good"` and `"bad"` — modelled as an
association list to make JS property lookup explicit. -/
structure PredOut where
  label : Label
  probs : List (String × ℚ)
deriving DecidableEq, Repr

/-- `predict`'s construction of its return value from the two softmax
outputs. -/
def predictOut (goodProb slouchProb : ℚ) : PredOut :=
  { label := if goodProb < slouchProb then Label.bad else Label.good
    probs := [("good", goodProb), ("bad", slouchProb)] }

/-- JS property access on a string-keyed object: `obj[1]` looks up the key
`"1"`. -/
def jsProp (probs : List (String × ℚ)) (key : String) : Option ℚ :=
  (probs.find? (fun p => p.1 == key)).map (fun p => p.2)

/-- The ensemble decision of `PostureDetector.processWindow` when a model
prediction is available (detectorAPI.ml.js lines 947-967).  The source builds
`modelProbs` from `modelPrediction.probs[0]` and `modelPrediction.probs[1]`
— i.e. the string keys `"0"` and `"1"` — with `|| 0` fallbacks, although
`predict` keys `probs` by the label names; the lookup is embedded exactly as
written. -/
def ensembleLabel (cfg : Config) (pred : PredOut) (thresholdLabel : Label) : Label :=
  let modelProbsGood := (jsProp pred.probs "0").getD 0
  let modelProbsSlouch := (jsProp pred.probs "1").getD 0
  if pred.label = Label.bad ∧ thresholdLabel = Label.bad then Label.bad
  else
    let modelBadScore := modelProbsSlouch * cfg.MODEL_WEIGHT
    let thresholdBadScore := (if thresholdLabel = Label.bad then 1 else 0) * cfg.THRESHOLD_WEIGHT
    let combinedBadScore := modelBadScore + thresholdBadScore
    if combinedBadScore > 1/2 then Label.bad
    else if thresholdLabel = Label.mild then Label.mild
    else
      let _ := modelProbsGood
      Label.good

/-- Modelled from the spec: the intended ensemble rule of section 4.3 — `bad`
when model and threshold classifier agree on bad, otherwise `bad` exactly when
`modelWeight × P(slouch) + thresholdWeight × indicator(threshold == bad)`
exceeds `0.5`, else the threshold classifier's mild/good result.  Here
`slouchProb` is the model's actual slouch probability, the value `predict`
stores under the `"bad"` key. -/
def specEnsembleLabel (cfg : Config) (slouchProb : ℚ) (modelLabel thresholdLabel : Label) :
    Label :=
  if modelLabel = Label.bad ∧ thresholdLabel = Label.bad then Label.bad
  else if slouchProb * cfg.MODEL_WEIGHT +
      (if thresholdLabel = Label.bad then 1 else 0) * cfg.THRESHOLD_WEIGHT > 1/2 then Label.bad
  else if thresholdLabel = Label.mild then Label.mild
  else Label.good

/-- A retained window-label record (`this.windowHistory` entries; the `status`
and `stats` fields of the pushed object are not read by the alert logic and
are omitted). -/
structure WindowRec where
  label : Label
  timestamp : ℤ
deriving DecidableEq, Repr

/-- The mutable fields of the `PostureDetector` singleton that the embedded
operations read or write. -/
structure DetectorState where
  isRunning : Bool
  detectionTimer : Option ℤ
  currentWindow : List Sample
  windowStartTime : Option ℤ
  windowIndex : ℕ
  windowHistory : List WindowRec
  badPersistenceMs : ℤ
  lastAlertTime : ℤ
  isMuted : Bool
  snoozeUntil : ℤ
  userGestureAllowed : Bool
  baselineAngle : Option ℚ
  lastClassification : Option Label
  personalizedThresholds : Option Thresholds
  angleHistory : List ℚ
deriving DecidableEq, Repr

/-- `PostureDetector.getThresholds` (lines 1228-1234):
`this.personalizedThresholds || config defaults`. -/
def getThresholds (cfg : Config) (st : DetectorState) : Thresholds :=
  st.personalizedThresholds.getD
    { good := cfg.GOOD_THRESHOLD, mild := cfg.MILD_THRESHOLD, bad := cfg.BAD_THRESHOLD }

/-- `PostureDetector.updateAdaptiveBaseline` (lines 1213-1226): on a `good`
window, exponentially update the baseline toward the window's absolute median
and re-derive the personalized thresholds from the window's relative median.
`stats.absolute?.median` being absent makes `isFinite(absoluteMedian)` false
and the method returns without changing anything; when present the median is
a rational, hence finite. -/
def updateAdaptiveBaseline (cfg : Config) (st : DetectorState) (stats : WinStats) :
    DetectorState :=
  match stats.absolute with
  | none => st
  | some a =>
    let newBaseline := match st.baselineAngle with
      | none => a.median
      | some b => (1 - cfg.BASELINE_UPDATE_ALPHA) * b + cfg.BASELINE_UPDATE_ALPHA * a.median
    { st with
        baselineAngle := some newBaseline
        personalizedThresholds := some
          { good := min cfg.GOOD_THRESHOLD (max (1/2) (stats.median + 1/5))
            mild := min cfg.MILD_THRESHOLD (max (cfg.GOOD_THRESHOLD + 1/2) (stats.median + 1))
            bad := max cfg.BAD_THRESHOLD (stats.median + 2) } }

/-- Number of `bad`-labelled records in a window history (the
`recentWindows.filter(...).length` of `checkForAlert`). -/
def countBad (l : List WindowRec) : ℕ := (l.filter (fun w => w.label == Label.bad)).length

/-- `checkForAlert`'s `consecutiveBad`: the last two records exist and are
both labelled `bad`. -/
def lastTwoBad (l : List WindowRec) : Bool :=
  decide (2 ≤ l.length) &&
    ((l.getD (l.length - 1) ⟨Label.good, 0⟩).label == Label.bad) &&
    ((l.getD (l.length - 2) ⟨Label.good, 0⟩).label == Label.bad)

/-- JS `arr.slice(-n)` for positive `n`: the last `n` elements. -/
def takeRightW (n : ℕ) (l : List WindowRec) : List WindowRec := l.drop (l.length - n)

/-- `checkForAlert`'s `recentWindows`:
`this.windowHistory.slice(-this.config.WINDOWS_HISTORY || 3)`.  When
`WINDOWS_HISTORY` is nonzero the first operand `-WINDOWS_HISTORY` is truthy
and this is `slice(-WINDOWS_HISTORY)`; when it is `0`, `-0` is falsy and the
call becomes `slice(3)`, dropping the first three records. -/
def recentOf (cfg : Config) (l : List WindowRec) : List WindowRec :=
  if cfg.WINDOWS_HISTORY = 0 then l.drop 3 else takeRightW cfg.WINDOWS_HISTORY l

/-- The cumulative bad persistence recomputed by `processWindow` (lines
996-998): `reduce` over the retained history, adding `SAMPLING_WINDOW_MS` for
each `bad`-labelled window. -/
def badPersistOf (cfg : Config) (l : List WindowRec) : ℤ :=
  l.foldl (fun s w => if w.label == Label.bad then s + cfg.SAMPLING_WINDOW_MS else s) 0

/-- `PostureDetector.checkForAlert` (detectorAPI.ml.js lines 1068-1093):
returns whether the alert fired (i.e. `triggerAlert`, which invokes the
`onAlert` callback, was reached) and the new state (`lastAlertTime := now`
when fired). -/
def checkForAlert (cfg : Config) (st : DetectorState) (now : ℤ) : Bool × DetectorState :=
  if st.windowHistory.length < 2 then (false, st)
  else
    let recent := recentOf cfg st.windowHistory
    let badCount := countBad recent
    let consecutiveBad := lastTwoBad recent
    let votesMet := decide (jsOrN cfg.WINDOWS_VOTES_REQUIRED 2 ≤ badCount)
    let persistenceMet := decide (jsOrZ cfg.PERSIST_MS 8000 ≤ st.badPersistenceMs)
    let cooldownMet := decide (jsOrZ cfg.ALERT_COOLDOWN_MS 30000 ≤ now - st.lastAlertTime)
    let notSnoozed := !st.isMuted && decide (st.snoozeUntil < now)
    if ((consecutiveBad || votesMet) && persistenceMet && cooldownMet && notSnoozed) = true then
      (true, { st with lastAlertTime := now })
    else (false, st)

/-- The history push of `processWindow` (lines 988-992): append the new
window record and `shift()` away the oldest one when the history exceeds
`WINDOWS_HISTORY`. -/
def pushedHistory (cfg : Config) (l : List WindowRec) (label : Label) (now : ℤ) :
    List WindowRec :=
  let hist1 := l ++ [⟨label, now⟩]
  if cfg.WINDOWS_HISTORY < hist1.length then hist1.tail else hist1

/-- The detector state after `processWindow` lines 988-998: history pushed
and trimmed, `badPersistenceMs` recomputed over the retained history. -/
def recordedState (cfg : Config) (st : DetectorState) (label : Label) (now : ℤ) :
    DetectorState :=
  { st with
      windowHistory := pushedHistory cfg st.windowHistory label now
      badPersistenceMs := badPersistOf cfg (pushedHistory cfg st.windowHistory label now) }

/-- The tail of `PostureDetector.processWindow` (lines 988-1000): push the
window record, evict the oldest record past `WINDOWS_HISTORY` (`shift()`),
recompute `badPersistenceMs` over the retained history, and run
`checkForAlert`.  Returns the new state and whether an alert fired. -/
def recordWindowAndAlert (cfg : Config) (st : DetectorState) (label : Label) (now : ℤ) :
    DetectorState × Bool :=
  ((checkForAlert cfg (recordedState cfg st label now) now).2,
   (checkForAlert cfg (recordedState cfg st label now) now).1)

/-- The per-window status object passed to `onUpdate` (the stringified angle
fields are represented by the optional statistics record; `reason` is
omitted). -/
structure WindowStatus where
  windowLabel : Label
  windowIndex : ℕ
  validFrames : ℕ
  stats : Option WinStats
  modelProbabilities : Option (ℚ × ℚ)
deriving DecidableEq, Repr

/-- `PostureDetector.processWindow` (detectorAPI.ml.js lines 907-1006).
`modelPred` is the awaited result of `predict` when a trained model and
normalization statistics are available (`this.model && normalizationStats`),
`none` in fallback threshold mode.  Returns the window status, the new
detector state, and whether an alert fired.  Windows with fewer than
`MIN_VALID_FRAMES` samples, or whose statistics come back `null`, report
`insufficient` and return with the state unchanged (in particular nothing is
pushed to `windowHistory`). -/
def processWindow (cfg : Config) (st : DetectorState) (modelPred : Option PredOut)
    (now : ℤ) : WindowStatus × DetectorState × Bool :=
  if st.currentWindow.length < cfg.MIN_VALID_FRAMES then
    ({ windowLabel := Label.insufficient, windowIndex := st.windowIndex,
       validFrames := st.currentWindow.length, stats := none, modelProbabilities := none },
     st, false)
  else
    match computeWindowStatistics st.currentWindow with
    | none =>
      ({ windowLabel := Label.insufficient, windowIndex := st.windowIndex,
         validFrames := st.currentWindow.length, stats := none, modelProbabilities := none },
       st, false)
    | some stats =>
      let tc := thresholdClassification (getThresholds cfg st) st.lastClassification stats.median
      let st1 := { st with lastClassification := tc.2 }
      let windowLabel := match modelPred with
        | some pred => ensembleLabel cfg pred tc.1
        | none => tc.1
      let modelProbs := modelPred.map (fun pred =>
        ((jsProp pred.probs "0").getD 0, (jsProp pred.probs "1").getD 0))
      let st2 := if windowLabel = Label.good ∧ stats.absolute.isSome then
          updateAdaptiveBaseline cfg st1 stats
        else st1
      let ra := recordWindowAndAlert cfg st2 windowLabel now
      ({ windowLabel := windowLabel, windowIndex := st.windowIndex,
         validFrames := st.currentWindow.length, stats := some stats,
         modelProbabilities := modelProbs },
       ra.1, ra.2)

/-- `PostureDetector.stopDetector` (detectorAPI.ml.js lines 815-825): early
return when not running; otherwise stop, clear the timer, the current window
buffer and the window start time. -/
def stopDetector (st : DetectorState) : DetectorState :=
  if st.isRunning = false then st
  else { st with
    isRunning := false
    detectionTimer := none
    currentWindow := []
    windowStartTime := none }

/-- The record returned by `PostureDetector.getStatus` (lines 1170-1180). -/
structure Status where
  running : Bool
  modelLoaded : Bool
  muted : Bool
  snoozed : Bool
  windowHistoryDepth : ℕ
  badPersistenceMs : ℤ
  userGestureAllowed : Bool
deriving DecidableEq, Repr

/-- `PostureDetector.getStatus`; `modelLoaded` reflects
`this.model !== null`, which is external to the state record and passed as a
parameter. -/
def getStatus (st : DetectorState) (modelLoaded : Bool) (now : ℤ) : Status :=
  { running := st.isRunning
    modelLoaded := modelLoaded
    muted := st.isMuted
    snoozed := decide (now < st.snoozeUntil)
    windowHistoryDepth := st.windowHistory.length
    badPersistenceMs := st.badPersistenceMs
    userGestureAllowed := st.userGestureAllowed }

/-- The value returned by `PostureDetector.forceInferOnce`: either the error
object or the classification result (the `features`/`metadata` fields are
determined by the feature result and omitted here). -/
structure InferOut where
  isError : Bool
  label : Option Label
  confidence : ℚ
  angleRel : ℚ
deriving DecidableEq, Repr

/-- `PostureDetector.forceInferOnce` (detectorAPI.ml.js lines 1147-1162):
validate the pose (which itself runs feature extraction against the DEFAULT
baseline and mutates the smoothing buffer), re-run feature extraction against
the detector's baseline (`null` coerces to `0` in the subtraction), then run
`thresholdClassification`, whose `lastClassification` write lands in the
shared detector state.  `kps = none` models a `null` keypoint source, for
which the source returns the error object before touching anything. -/
def forceInferOnce (cfg : Config) (G : Geometry) (st : DetectorState)
    (kps : Option Keypoints) : InferOut × DetectorState :=
  match kps with
  | none => ({ isError := true, label := none, confidence := 0, angleRel := 0 }, st)
  | some k =>
    let hv := hasValidPose G k cfg.MIN_CONFIDENCE st.angleHistory
    if hv.1 = false then
      ({ isError := true, label := none, confidence := 0, angleRel := 0 },
       { st with angleHistory := hv.2 })
    else
      let fr := computeFeaturesFromKeypoints G k (st.baselineAngle.getD 0) hv.2
      match fr.1.features, fr.1.meta with
      | some _, some m =>
        let tc := thresholdClassification (getThresholds cfg st) st.lastClassification
          m.spineAngleRel
        ({ isError := false, label := some tc.1, confidence := fr.1.confidence,
           angleRel := m.spineAngleRel },
         { st with angleHistory := fr.2, lastClassification := tc.2 })
      | _, _ =>
        ({ isError := true, label := none, confidence := 0, angleRel := 0 },
         { st with angleHistory := fr.2 })

/-- A keypoint with confidence 0.9, as in the repository's mock data. -/
def pt9 : Pt := { x := 1/2, y := 3/10, z := 0, conf := 9/10 }

/-- A full set of required keypoints. -/
def fullKps : Keypoints :=
  { leftShoulder := some pt9, rightShoulder := some pt9, leftHip := some pt9,
    rightHip := some pt9, nose := some pt9 }

/-- A keypoint set missing the nose. -/
def noNoseKps : Keypoints :=
  { leftShoulder := some pt9, rightShoulder := some pt9, leftHip := some pt9,
    rightHip := some pt9, nose := none }

/-- A concrete rational-valued geometry: the raw combined spine angle is
constantly 17 degrees, the ratios 1, the shoulder slope 0. -/
def constGeometry : Geometry :=
  { rawCombinedAngle := fun _ _ _ _ => 17
    headForwardRatioFn := fun _ _ _ => 1
    shoulderWidthRatioFn := fun _ _ => 1
    shoulderSlopeFn := fun _ _ => 0 }

/-- A freshly started detector state (the field values set by `startDetector`
with a loaded baseline of 5 degrees). -/
def idleState : DetectorState :=
  { isRunning := false
    detectionTimer := none
    currentWindow := []
    windowStartTime := none
    windowIndex := 0
    windowHistory := []
    badPersistenceMs := 0
    lastAlertTime := 0
    isMuted := false
    snoozeUntil := 0
    userGestureAllowed := false
    baselineAngle := some 5
    lastClassification := none
    personalizedThresholds := none
    angleHistory := [] }

/-- Degenerate per-window statistics of a window whose relative angles are
all 7 degrees. -/
def statsCore7 : StatsCore :=
  { mean := 7, median := 7, varOfStd := 0, p25 := 7, p75 := 7, trimmedMean := 7,
    count := 3, vmin := 7, vmax := 7 }

/-- Window statistics with relative and absolute medians of 7 degrees. -/
def stats7 : WinStats := { toStatsCore := statsCore7, absolute := some statsCore7 }

/-- A detector state whose current window buffer holds only two samples. -/
def shortWindowState : DetectorState :=
  { idleState with currentWindow := [⟨12, 17, 9/10⟩, ⟨12, 17, 9/10⟩] }

/-- A detector state whose hysteresis state is `good`. -/
def goodState : DetectorState := { idleState with lastClassification := some Label.good }

/-- A detector state that already retains one `bad` window and is otherwise
alert-eligible. -/
def c1State : DetectorState := { idleState with windowHistory := [⟨Label.bad, 0⟩] }

/-!  Theorems.  -/

/-- Helper: whenever `thresholdClassification` returns `good`, the new
`lastClassification` state is `good` (either it was already `good` and is
left untouched, or it is assigned). -/
theorem thresholdClassification_good_state (th : Thresholds) (last : Option Label) (a : ℚ)
    (h : (thresholdClassification th last a).1 = Label.good) :
    (thresholdClassification th last a).2 = some Label.good := by
  rcases last with _ | l
  · simp only [thresholdClassification] at h ⊢
    split_ifs at h ⊢ <;> simp_all
  · cases l <;> simp only [thresholdClassification] at h ⊢ <;>
      split_ifs at h ⊢ <;> simp_all

/-- C5: once the threshold classifier has classified `good` (which always
leaves the hysteresis state at `good`), a single subsequent window whose
`angleRel` lies between `mildThreshold` and `mildThreshold + 1.5` (the
hysteresis margin) is still classified `good`, not `mild`. -/
theorem c5_good_hysteresis (th : Thresholds) (last : Option Label) (a1 a2 : ℚ)
    (hm : th.mild ≠ 0)
    (h1 : (thresholdClassification th last a1).1 = Label.good)
    (h2 : th.mild < a2) (h3 : a2 ≤ th.mild + 3/2) :
    (thresholdClassification th (thresholdClassification th last a1).2 a2).1 = Label.good := by
  rw [thresholdClassification_good_state th last a1 h1]
  simp only [thresholdClassification, jsOrQ, if_neg hm]
  rw [if_pos h3]

/-- Witness for C5 at the default thresholds: classify 3 degrees from a fresh
state (yielding `good`), then 11 degrees, which is between the mild threshold
10 and 10 + 1.5, and is still classified `good`. -/
theorem c5_good_hysteresis_witness :
    ((10 : ℚ) ≠ 0 ∧
      (thresholdClassification ⟨5, 10, 10⟩ none 3).1 = Label.good ∧
      (10 : ℚ) < 11 ∧ (11 : ℚ) ≤ 10 + 3/2) ∧
    (thresholdClassification ⟨5, 10, 10⟩ (thresholdClassification ⟨5, 10, 10⟩ none 3).2 11).1
      = Label.good :=
  ⟨⟨by norm_num, by norm_num [thresholdClassification, jsOrQ], by norm_num, by norm_num⟩,
   c5_good_hysteresis ⟨5, 10, 10⟩ none 3 11 (by norm_num)
     (by norm_num [thresholdClassification, jsOrQ]) (by norm_num) (by norm_num)⟩

/-- C4 counterexample: the claim reads "after the threshold classifier has
RETURNED mild, ... for goodThreshold < angleRel ≤ badThreshold the classifier
returns mild (never good)".  With the personalized thresholds
`{good 5, mild 8, bad 10}` — exactly what `updateAdaptiveBaseline` derives
after a good window with median 7 — a classifier in the `good` hysteresis
state returns `mild` at 10 degrees WITHOUT updating its state, and the next
classification at 7 degrees (which is in `(5, 10]`) returns `good`. -/
theorem c4_counterexample :
    (updateAdaptiveBaseline defaultConfig idleState stats7).personalizedThresholds
      = some { good := 5, mild := 8, bad := 10 } ∧
    (thresholdClassification { good := 5, mild := 8, bad := 10 } (some Label.good) 10).1
      = Label.mild ∧
    ((5 : ℚ) < 7 ∧ (7 : ℚ) ≤ 10) ∧
    (thresholdClassification { good := 5, mild := 8, bad := 10 }
      (thresholdClassification { good := 5, mild := 8, bad := 10 } (some Label.good) 10).2
      7).1 = Label.good := by
  refine ⟨?_, ?_, ⟨by norm_num, by norm_num⟩, ?_⟩
  · norm_num [updateAdaptiveBaseline, defaultConfig, idleState, stats7, statsCore7,
      min_def, max_def]
  · norm_num [thresholdClassification, jsOrQ]
  · norm_num [thresholdClassification, jsOrQ]

/-- C4 (amended): when the classifier's hysteresis STATE is `mild`
(`lastClassification = mild`), it demotes to `good` only if
`angleRel ≤ goodThreshold`; for `goodThreshold < angleRel ≤ badThreshold` it
returns `mild` (never `good`), and for `angleRel > badThreshold` it returns
`bad`.  (Merely having RETURNED `mild` does not guarantee this, because a
`mild` return from the `good` state leaves the state at `good`; see the
counterexample.)  The hypotheses record that the thresholds are truthy and
ordered, as every `getThresholds` result is. -/
theorem c4_mild_state_demotion (th : Thresholds) (a : ℚ)
    (hg : th.good ≠ 0) (hb : th.bad ≠ 0) (hgb : th.good ≤ th.bad) :
    ((thresholdClassification th (some Label.mild) a).1 = Label.good → a ≤ th.good) ∧
    (th.good < a → a ≤ th.bad →
      (thresholdClassification th (some Label.mild) a).1 = Label.mild) ∧
    (th.bad < a → (thresholdClassification th (some Label.mild) a).1 = Label.bad) := by
  simp only [thresholdClassification, jsOrQ, if_neg hg, if_neg hb]
  refine ⟨?_, ?_, ?_⟩
  · intro h
    by_contra hc
    push_neg at hc
    rw [if_neg (not_le.mpr hc)] at h
    split_ifs at h <;> simp_all
  · intro h1 h2
    rw [if_neg (not_le.mpr h1), if_pos h2]
  · intro h1
    rw [if_neg (not_le.mpr (lt_of_le_of_lt hgb h1)), if_neg (not_le.mpr h1)]

/-- Witness for the amended C4 at thresholds `{good 5, mild 8, bad 10}` and
9 degrees: the classification from the `mild` state is `mild`, not `good`. -/
theorem c4_mild_state_demotion_witness :
    ((5 : ℚ) ≠ 0 ∧ (10 : ℚ) ≠ 0 ∧ (5 : ℚ) ≤ 10) ∧
    (((thresholdClassification ⟨5, 8, 10⟩ (some Label.mild) 9).1 = Label.good → (9 : ℚ) ≤ 5) ∧
      ((5 : ℚ) < 9 → (9 : ℚ) ≤ 10 →
        (thresholdClassification ⟨5, 8, 10⟩ (some Label.mild) 9).1 = Label.mild) ∧
      ((10 : ℚ) < 9 → (thresholdClassification ⟨5, 8, 10⟩ (some Label.mild) 9).1 = Label.bad)) :=
  ⟨⟨by norm_num, by norm_num, by norm_num⟩,
   c4_mild_state_demotion ⟨5, 8, 10⟩ 9 (by norm_num) (by norm_num) (by norm_num)⟩

/-- C2 (code bug): `processWindow` builds its model probabilities from
`modelPrediction.probs[0]` and `probs[1]`, but `predict` keys `probs` by the
label names `"good"`/`"bad"`, so both lookups yield `undefined || 0 = 0` and
the weighted combination is `0` whenever model and threshold do not both say
bad.  At slouch probability 0.9 with threshold label `mild`, the claimed
combination `0.7 × 0.9 + 0.3 × 0 = 0.63` exceeds `0.5` and the
spec-modelled ensemble says `bad`, but the code labels the window `mild`. -/
theorem c2_model_weight_never_applied :
    ensembleLabel defaultConfig (predictOut (1/10) (9/10)) Label.mild = Label.mild ∧
    specEnsembleLabel defaultConfig (9/10) Label.bad Label.mild = Label.bad ∧
    (9/10 : ℚ) * defaultConfig.MODEL_WEIGHT + 0 * defaultConfig.THRESHOLD_WEIGHT > 1/2 := by
  refine ⟨?_, ?_, ?_⟩
  · simp [ensembleLabel, predictOut, jsProp, defaultConfig]
  · norm_num [specEnsembleLabel, defaultConfig]
    intro _ h
    simp at h
    norm_num at h
  · norm_num [defaultConfig]

/-- C3 counterexample: a window closing with two samples (below
`MIN_VALID_FRAMES = 3`) is labelled `insufficient` but is NOT recorded in the
rolling window-label history — the history stays empty, so it does not count
toward the history length as the claim states. -/
theorem c3_insufficient_not_recorded :
    (processWindow defaultConfig shortWindowState none 5000).1.windowLabel
      = Label.insufficient ∧
    (processWindow defaultConfig shortWindowState none 5000).2.1.windowHistory = [] := by
  constructor <;>
    norm_num [processWindow, shortWindowState, idleState, defaultConfig]

/-- C3 (amended): a window that closes with fewer than `MIN_VALID_FRAMES`
accepted samples yields label `insufficient`, produces no statistics, and is
NOT recorded in the rolling window-label history: the detector state
(including `windowHistory` and `badPersistenceMs`) is unchanged and no alert
fires. -/
theorem c3_insufficient_window (cfg : Config) (st : DetectorState)
    (modelPred : Option PredOut) (now : ℤ)
    (h : st.currentWindow.length < cfg.MIN_VALID_FRAMES) :
    (processWindow cfg st modelPred now).1.windowLabel = Label.insufficient ∧
    (processWindow cfg st modelPred now).1.stats = none ∧
    (processWindow cfg st modelPred now).2.1 = st ∧
    (processWindow cfg st modelPred now).2.2 = false := by
  simp [processWindow, h]

/-- Witness for the amended C3: the two-sample window under the default
configuration. -/
theorem c3_insufficient_window_witness :
    shortWindowState.currentWindow.length < defaultConfig.MIN_VALID_FRAMES ∧
    ((processWindow defaultConfig shortWindowState none 5000).1.windowLabel
        = Label.insufficient ∧
      (processWindow defaultConfig shortWindowState none 5000).1.stats = none ∧
      (processWindow defaultConfig shortWindowState none 5000).2.1 = shortWindowState ∧
      (processWindow defaultConfig shortWindowState none 5000).2.2 = false) :=
  ⟨by norm_num [shortWindowState, idleState, defaultConfig],
   c3_insufficient_window defaultConfig shortWindowState none 5000
     (by norm_num [shortWindowState, idleState, defaultConfig])⟩

/-- C9: calling `stopDetector` twice in a row produces no errors — the second
call hits the early return on an already-stopped detector and leaves the
state unchanged — and `getStatus` afterwards reports `running: false`. -/
theorem c9_stop_idempotent (st : DetectorState) (modelLoaded : Bool) (now : ℤ) :
    stopDetector (stopDetector st) = stopDetector st ∧
    (getStatus (stopDetector (stopDetector st)) modelLoaded now).running = false := by
  cases h : st.isRunning <;> simp [stopDetector, getStatus, h]

/-- Witness for C9 on a concrete (idle) detector state. -/
theorem c9_stop_idempotent_witness :
    stopDetector (stopDetector idleState) = stopDetector idleState ∧
    (getStatus (stopDetector (stopDetector idleState)) false 0).running = false :=
  c9_stop_idempotent idleState false 0

/-- C8: whenever `updateAdaptiveBaseline` runs after a good window with
absolute statistics present, every recomputed personalized threshold is at
least the corresponding static default minus the fixed margin 4.5 degrees
(the `good` and `mild` floors are `0.5` and `GOOD_THRESHOLD + 0.5 = 5.5`,
i.e. default minus 4.5; the `bad` cutoff never drops below its default at
all). -/
theorem c8_personalized_thresholds_floor (st : DetectorState) (stats : WinStats)
    (a : StatsCore) (habs : stats.absolute = some a) :
    ∃ pt, (updateAdaptiveBaseline defaultConfig st stats).personalizedThresholds = some pt ∧
      defaultConfig.GOOD_THRESHOLD - 9/2 ≤ pt.good ∧
      defaultConfig.MILD_THRESHOLD - 9/2 ≤ pt.mild ∧
      defaultConfig.BAD_THRESHOLD - 9/2 ≤ pt.bad := by
  have h : (updateAdaptiveBaseline defaultConfig st stats).personalizedThresholds = some
      { good := min defaultConfig.GOOD_THRESHOLD (max (1/2) (stats.median + 1/5))
        mild := min defaultConfig.MILD_THRESHOLD
          (max (defaultConfig.GOOD_THRESHOLD + 1/2) (stats.median + 1))
        bad := max defaultConfig.BAD_THRESHOLD (stats.median + 2) } := by
    simp only [updateAdaptiveBaseline, habs]
  refine ⟨_, h, ?_, ?_, ?_⟩
  · exact le_min (by norm_num [defaultConfig])
      (le_trans (by norm_num [defaultConfig]) (le_max_left _ _))
  · exact le_min (by norm_num [defaultConfig])
      (le_trans (by norm_num [defaultConfig]) (le_max_left _ _))
  · exact le_trans (by norm_num [defaultConfig]) (le_max_left _ _)

/-- Witness for C8 on the 7-degree-median window statistics. -/
theorem c8_personalized_thresholds_floor_witness :
    stats7.absolute = some statsCore7 ∧
    (∃ pt, (updateAdaptiveBaseline defaultConfig idleState stats7).personalizedThresholds
        = some pt ∧
      defaultConfig.GOOD_THRESHOLD - 9/2 ≤ pt.good ∧
      defaultConfig.MILD_THRESHOLD - 9/2 ≤ pt.mild ∧
      defaultConfig.BAD_THRESHOLD - 9/2 ≤ pt.bad) :=
  ⟨rfl, c8_personalized_thresholds_floor idleState stats7 statsCore7 rfl⟩

/-- Helper: `jsOrN` on a truthy (nonzero) value is the identity. -/
theorem jsOrN_eq_self (n d : ℕ) (h : n ≠ 0) : jsOrN n d = n := if_neg h

/-- Helper: `jsOrZ` on a truthy (nonzero) value is the identity. -/
theorem jsOrZ_eq_self (n d : ℤ) (h : n ≠ 0) : jsOrZ n d = n := if_neg h

/-- Helper: `recentWindows` is the whole retained history whenever
`WINDOWS_HISTORY` is truthy and bounds the history length. -/
theorem recentOf_eq_self (cfg : Config) (l : List WindowRec)
    (h0 : cfg.WINDOWS_HISTORY ≠ 0) (h : l.length ≤ cfg.WINDOWS_HISTORY) :
    recentOf cfg l = l := by
  simp only [recentOf, takeRightW, if_neg h0, Nat.sub_eq_zero_of_le h, List.drop_zero]

/-- Helper: pushing one record into a history bounded by `WINDOWS_HISTORY`
keeps it bounded. -/
theorem pushedHistory_length_le (cfg : Config) (l : List WindowRec) (label : Label)
    (now : ℤ) (h : l.length ≤ cfg.WINDOWS_HISTORY) :
    (pushedHistory cfg l label now).length ≤ cfg.WINDOWS_HISTORY := by
  simp only [pushedHistory]
  split_ifs with hc
  · simp only [List.length_tail, List.length_append, List.length_singleton]
    omega
  · simp only [List.length_append, List.length_singleton] at hc ⊢
    omega

/-- Helper: `checkForAlert` never changes the window history. -/
theorem checkForAlert_snd_history (cfg : Config) (st : DetectorState) (now : ℤ) :
    (checkForAlert cfg st now).2.windowHistory = st.windowHistory := by
  simp only [checkForAlert]
  split_ifs <;> rfl

/-- Helper: if `checkForAlert` fires, every one of its gating conditions held
on the state it inspected. -/
theorem checkForAlert_fired (cfg : Config) (st : DetectorState) (now : ℤ)
    (hf : (checkForAlert cfg st now).1 = true) :
    2 ≤ st.windowHistory.length ∧
    (lastTwoBad (recentOf cfg st.windowHistory) = true ∨
      jsOrN cfg.WINDOWS_VOTES_REQUIRED 2 ≤ countBad (recentOf cfg st.windowHistory)) ∧
    jsOrZ cfg.PERSIST_MS 8000 ≤ st.badPersistenceMs ∧
    jsOrZ cfg.ALERT_COOLDOWN_MS 30000 ≤ now - st.lastAlertTime ∧
    st.isMuted = false ∧ st.snoozeUntil < now := by
  by_cases hlen : st.windowHistory.length < 2
  · simp [checkForAlert, hlen] at hf
  · simp only [checkForAlert, if_neg hlen] at hf
    split_ifs at hf with hc
    · simp only [Bool.and_eq_true, Bool.or_eq_true, decide_eq_true_eq,
        Bool.not_eq_true'] at hc
      obtain ⟨⟨⟨hOr, hPers⟩, hCool⟩, hMut, hSnz⟩ := hc
      exact ⟨Nat.not_lt.mp hlen, hOr, hPers, hCool, hMut, hSnz⟩

/-- C1: at the moment a window closes, the alert engine (history push,
persistence recompute, `checkForAlert`) fires — i.e. reaches `triggerAlert`
and hence the `onAlert` callback — only when ALL of the following hold: the
retained history has at least 2 windows; the last two retained windows are
both `bad` or at least `WINDOWS_VOTES_REQUIRED` of the retained windows are
`bad`; the cumulative bad persistence (the sum of `SAMPLING_WINDOW_MS` over
retained `bad` windows) is at least `PERSIST_MS`; at least
`ALERT_COOLDOWN_MS` has elapsed since the last alert; the engine is not
muted; and the current time is past the snooze-until timestamp.  In
particular an alert never fires while the cumulative bad-window duration is
below `PERSIST_MS`.  The hypotheses record that the relevant configured
values are truthy (as the defaults are) and that the retained history is
bounded by `WINDOWS_HISTORY` (the invariant `processWindow` maintains). -/
theorem c1_alert_only_when_conditions_hold (cfg : Config) (st : DetectorState)
    (label : Label) (now : ℤ)
    (hwh : cfg.WINDOWS_HISTORY ≠ 0)
    (hv : cfg.WINDOWS_VOTES_REQUIRED ≠ 0)
    (hp : cfg.PERSIST_MS ≠ 0)
    (hcd : cfg.ALERT_COOLDOWN_MS ≠ 0)
    (hlen : st.windowHistory.length ≤ cfg.WINDOWS_HISTORY)
    (hfired : (recordWindowAndAlert cfg st label now).2 = true) :
    2 ≤ (recordWindowAndAlert cfg st label now).1.windowHistory.length ∧
    (lastTwoBad (recordWindowAndAlert cfg st label now).1.windowHistory = true ∨
      cfg.WINDOWS_VOTES_REQUIRED
        ≤ countBad (recordWindowAndAlert cfg st label now).1.windowHistory) ∧
    cfg.PERSIST_MS
      ≤ badPersistOf cfg (recordWindowAndAlert cfg st label now).1.windowHistory ∧
    cfg.ALERT_COOLDOWN_MS ≤ now - st.lastAlertTime ∧
    st.isMuted = false ∧ st.snoozeUntil < now := by
  have hbound : (pushedHistory cfg st.windowHistory label now).length ≤ cfg.WINDOWS_HISTORY :=
    pushedHistory_length_le cfg st.windowHistory label now hlen
  have hrec : recentOf cfg (pushedHistory cfg st.windowHistory label now)
      = pushedHistory cfg st.windowHistory label now :=
    recentOf_eq_self cfg _ hwh hbound
  have hfired2 : (checkForAlert cfg (recordedState cfg st label now) now).1 = true := hfired
  have hc := checkForAlert_fired cfg (recordedState cfg st label now) now hfired2
  simp only [recordedState] at hc
  rw [hrec] at hc
  have hph : (recordWindowAndAlert cfg st label now).1.windowHistory
      = pushedHistory cfg st.windowHistory label now := by
    simp only [recordWindowAndAlert, checkForAlert_snd_history, recordedState]
  rw [hph]
  rw [jsOrN_eq_self _ _ hv, jsOrZ_eq_self _ _ hp, jsOrZ_eq_self _ _ hcd] at hc
  exact hc

/-- Witness for C1: a retained `bad` window plus a closing `bad` window at
time 50000 ms with cooldown and snooze clear makes the alert fire, and all
the gating conditions hold. -/
theorem c1_alert_only_when_conditions_hold_witness :
    (defaultConfig.WINDOWS_HISTORY ≠ 0 ∧
      defaultConfig.WINDOWS_VOTES_REQUIRED ≠ 0 ∧
      defaultConfig.PERSIST_MS ≠ 0 ∧
      defaultConfig.ALERT_COOLDOWN_MS ≠ 0 ∧
      c1State.windowHistory.length ≤ defaultConfig.WINDOWS_HISTORY ∧
      (recordWindowAndAlert defaultConfig c1State Label.bad 50000).2 = true) ∧
    (2 ≤ (recordWindowAndAlert defaultConfig c1State Label.bad 50000).1.windowHistory.length ∧
      (lastTwoBad (recordWindowAndAlert defaultConfig c1State Label.bad 50000).1.windowHistory
          = true ∨
        defaultConfig.WINDOWS_VOTES_REQUIRED ≤ countBad
          (recordWindowAndAlert defaultConfig c1State Label.bad 50000).1.windowHistory) ∧
      defaultConfig.PERSIST_MS ≤ badPersistOf defaultConfig
        (recordWindowAndAlert defaultConfig c1State Label.bad 50000).1.windowHistory ∧
      defaultConfig.ALERT_COOLDOWN_MS ≤ 50000 - c1State.lastAlertTime ∧
      c1State.isMuted = false ∧ c1State.snoozeUntil < 50000) :=
  ⟨⟨by decide, by decide, by decide, by decide, by decide, by decide⟩,
   c1_alert_only_when_conditions_hold defaultConfig c1State Label.bad 50000
     (by decide) (by decide) (by decide) (by decide) (by decide) (by decide)⟩

/-- C7: for every keypoints input missing any of the five required points,
`computeFeaturesFromKeypoints` returns the rejection object (features null,
confidence 0, an error reason recorded in the metadata) rather than raising,
and mutates no shared state: in particular the module-level angle-smoothing
buffer is returned unchanged (the missing-keypoint throw happens before
`computeSpineAngle` is ever invoked). -/
theorem c7_missing_keypoint_rejection (G : Geometry) (kps : Keypoints) (b : ℚ)
    (hist : List ℚ)
    (hmiss : kps.leftShoulder = none ∨ kps.rightShoulder = none ∨ kps.leftHip = none ∨
      kps.rightHip = none ∨ kps.nose = none) :
    (computeFeaturesFromKeypoints G kps b hist).1.features = none ∧
    (computeFeaturesFromKeypoints G kps b hist).1.confidence = 0 ∧
    (computeFeaturesFromKeypoints G kps b hist).1.errMsg.isSome = true ∧
    (computeFeaturesFromKeypoints G kps b hist).2 = hist := by
  obtain ⟨ls, rs, lh, rh, n⟩ := kps
  cases ls <;> cases rs <;> cases lh <;> cases rh <;> cases n <;>
    simp_all [computeFeaturesFromKeypoints, rejectResult]

/-- Witness for C7: a keypoint set missing the nose leaves a 1-entry
smoothing buffer untouched. -/
theorem c7_missing_keypoint_rejection_witness :
    (noNoseKps.leftShoulder = none ∨ noNoseKps.rightShoulder = none ∨
      noNoseKps.leftHip = none ∨ noNoseKps.rightHip = none ∨ noNoseKps.nose = none) ∧
    ((computeFeaturesFromKeypoints constGeometry noNoseKps 5 [3]).1.features = none ∧
      (computeFeaturesFromKeypoints constGeometry noNoseKps 5 [3]).1.confidence = 0 ∧
      (computeFeaturesFromKeypoints constGeometry noNoseKps 5 [3]).1.errMsg.isSome = true ∧
      (computeFeaturesFromKeypoints constGeometry noNoseKps 5 [3]).2 = [3]) :=
  ⟨Or.inr (Or.inr (Or.inr (Or.inr rfl))),
   c7_missing_keypoint_rejection constGeometry noNoseKps 5 [3]
     (Or.inr (Or.inr (Or.inr (Or.inr rfl))))⟩

/-- C6: for every keypoint input that parses to all five required points with
average confidence at least `MIN_CONFIDENCE`, whenever
`computeFeaturesFromKeypoints` returns a non-null features array, that array
has exactly 5 entries in the fixed order
`[spineAngle, spineAngleRelative, headForwardRatio, shoulderWidthRatio,
avgConfidence]` (so `spineAngleRelative = |spineAngle - baseline|` and the
last entry is the average confidence), and the spine angle lies in
`[MIN_ANGLE, MAX_ANGLE] = [0, 70]`.  Every entry is a rational number, hence
finite and non-NaN by construction of the model (the source enforces this
with its `isFinite`/`isNaN` gate). -/
theorem c6_feature_vector_valid (G : Geometry) (kps : Keypoints) (b : ℚ) (hist : List ℚ)
    (ls rs lh rh n : Pt) (fs : List ℚ)
    (hls : kps.leftShoulder = some ls) (hrs : kps.rightShoulder = some rs)
    (hlh : kps.leftHip = some lh) (hrh : kps.rightHip = some rh) (hn : kps.nose = some n)
    (hconf : defaultConfig.MIN_CONFIDENCE
      ≤ (ls.conf + rs.conf + lh.conf + rh.conf + n.conf) / 5)
    (hfs : (computeFeaturesFromKeypoints G kps b hist).1.features = some fs) :
    fs.length = 5 ∧
    ∃ a hfr swr,
      fs = [a, |a - b|, hfr, swr, (ls.conf + rs.conf + lh.conf + rh.conf + n.conf) / 5] ∧
      (computeFeaturesFromKeypoints G kps b hist).1.confidence
        = (ls.conf + rs.conf + lh.conf + rh.conf + n.conf) / 5 ∧
      defaultConfig.MIN_ANGLE ≤ a ∧ a ≤ defaultConfig.MAX_ANGLE := by
  simp only [computeFeaturesFromKeypoints, hls, hrs, hlh, hrh, hn] at hfs ⊢
  split_ifs at hfs ⊢ with h1 h2
  · simp [rejectResult] at hfs
  · simp [rejectResult] at hfs
  · push_neg at h2
    simp only [Option.some.injEq] at hfs
    subst hfs
    exact ⟨rfl, _, _, _, rfl, rfl, h2.1, h2.2⟩

/-- Witness for C6: the constant-17-degree geometry on the full mock keypoint
set yields the feature vector `[17, 12, 1, 1, 0.9]` with baseline 5. -/
theorem c6_feature_vector_valid_witness :
    (defaultConfig.MIN_CONFIDENCE
        ≤ (pt9.conf + pt9.conf + pt9.conf + pt9.conf + pt9.conf) / 5 ∧
      (computeFeaturesFromKeypoints constGeometry fullKps 5 []).1.features
        = some [17, 12, 1, 1, 9/10]) ∧
    ([(17 : ℚ), 12, 1, 1, 9/10].length = 5 ∧
      ∃ a hfr swr,
        [(17 : ℚ), 12, 1, 1, 9/10]
            = [a, |a - 5|, hfr, swr, (pt9.conf + pt9.conf + pt9.conf + pt9.conf + pt9.conf) / 5] ∧
          (computeFeaturesFromKeypoints constGeometry fullKps 5 []).1.confidence
            = (pt9.conf + pt9.conf + pt9.conf + pt9.conf + pt9.conf) / 5 ∧
          defaultConfig.MIN_ANGLE ≤ a ∧ a ≤ defaultConfig.MAX_ANGLE) := by
  have habs : |(17 : ℚ) - 5| = 12 := by
    rw [show (17 : ℚ) - 5 = 12 by norm_num]
    exact abs_of_nonneg (by norm_num)
  have hEval : (computeFeaturesFromKeypoints constGeometry fullKps 5 []).1.features
      = some [17, 12, 1, 1, 9/10] := by
    norm_num [computeFeaturesFromKeypoints, computeSpineAngle, constGeometry, fullKps, pt9,
      sortQ, insertSortedQ, defaultConfig, min_def, habs]
  exact ⟨⟨by norm_num [pt9, defaultConfig], hEval⟩,
    c6_feature_vector_valid constGeometry fullKps 5 [] pt9 pt9 pt9 pt9 pt9 _
      rfl rfl rfl rfl rfl (by norm_num [pt9, defaultConfig]) hEval⟩

/-- C10: `forceInferOnce` is not read-only with respect to classification
state.  On the concrete `goodState` (hysteresis state `good`) with the
constant-17-degree geometry (relative angle 12), a window classification at
11 degrees returns `good` before the call; the single `forceInferOnce` call
runs `thresholdClassification`, which writes `lastClassification := bad` into
the shared state, after which the same 11-degree window classification
returns `bad`. -/
theorem c10_force_infer_mutates_state :
    (thresholdClassification (getThresholds defaultConfig goodState)
        goodState.lastClassification 11).1 = Label.good ∧
    (forceInferOnce defaultConfig constGeometry goodState (some fullKps)).2.lastClassification
      = some Label.bad ∧
    (thresholdClassification (getThresholds defaultConfig goodState)
        (forceInferOnce defaultConfig constGeometry goodState (some fullKps)).2.lastClassification
        11).1 = Label.bad := by
  have habs : |(17 : ℚ) - 5| = 12 := by
    rw [show (17 : ℚ) - 5 = 12 by norm_num]
    exact abs_of_nonneg (by norm_num)
  have hmut : (forceInferOnce defaultConfig constGeometry goodState
      (some fullKps)).2.lastClassification = some Label.bad := by
    norm_num [forceInferOnce, hasValidPose, computeFeaturesFromKeypoints, computeSpineAngle,
      constGeometry, fullKps, pt9, sortQ, insertSortedQ, defaultConfig, goodState, idleState,
      getThresholds, thresholdClassification, jsOrQ, min_def, habs]
  refine ⟨?_, hmut, ?_⟩
  · norm_num [thresholdClassification, getThresholds, goodState, idleState, defaultConfig,
      jsOrQ]
  · rw [hmut]
    norm_num [thresholdClassification, getThresholds, goodState, idleState, defaultConfig,
      jsOrQ]

end PostureGuide
